import Mathlib

/-!
Verification of the provider-dispatch / error-normalization core of
`src/app.py` (a Streamlit speech-recognition front-end).

The Python functions `transcribe_speech`, `transcribe_mp3` and
`save_transcription` are shallowly embedded.  All interaction with the
outside world (the microphone, the `speech_recognition` backends, the
ffmpeg probe, the pydub decoder, the filesystem, the wall clock) is made
explicit: every external call appears as a parameter describing its
outcome, and the embedding reproduces exactly the branching, exception
handling and string construction of the source.
-/

namespace Speach

/-- Process environment, restricted to the four variables the source
reads with `os.getenv` (each is `none` when the variable is unset). -/
structure Env where
  wit_ai_key : Option String
  bing_key : Option String
  houndify_client_id : Option String
  houndify_client_key : Option String
deriving DecidableEq, Repr

/-- An environment with none of the credential variables set. -/
def envEmpty : Env :=
  { wit_ai_key := none, bing_key := none,
    houndify_client_id := none, houndify_client_key := none }

/-- An environment with every credential variable set. -/
def envFull : Env :=
  { wit_ai_key := some "WK", bing_key := some "BK",
    houndify_client_id := some "HI", houndify_client_key := some "HK" }

/-- The exact argument list the source hands to a `recognize_*` backend
call.  A field of type `Option (Option String)` is `none` when the source
does not pass that keyword at all, and `some v` when it passes the value
`v` of the corresponding `os.getenv` lookup (which may itself be `none`,
i.e. Python `None`). -/
structure BackendCall where
  provider : String
  audio : Nat
  language : Option String
  apiKey : Option (Option String)
  clientId : Option (Option String)
  clientKey : Option (Option String)
deriving DecidableEq, Repr

/-- Outcome of one backend `recognize_*` invocation, as the source can
observe it: a transcript, `sr.UnknownValueError`, `sr.RequestError`
(with its `str(e)`), or any other raised exception (with its `str(e)`). -/
inductive RecogOutcome where
  | success (text : String)
  | unknownValue
  | requestError (msg : String)
  | otherError (msg : String)
deriving DecidableEq, Repr

/-- A backend model: what each possible backend invocation returns.
`transcribe_speech` / `transcribe_mp3` are parametric in this. -/
abbrev Backend : Type := BackendCall → RecogOutcome

/-- Outcome of `sr.Microphone()` in the `with` header (line 35): the
constructor either yields a source or raises (e.g. PyAudio missing).
The constructor is OUTSIDE every `try` of the source. -/
inductive MicOutcome where
  | ok
  | openError (msg : String)
deriving DecidableEq, Repr

/-- Outcome of `r.listen(source)` (line 39), covering the four handlers
at lines 41-48: success (yielding an audio buffer), `WaitTimeoutError`,
`UnknownValueError`, `RequestError`, or any other exception. -/
inductive ListenOutcome where
  | ok (audio : Nat)
  | waitTimeout
  | unknownValue
  | requestError (msg : String)
  | otherError (msg : String)
deriving DecidableEq, Repr

/-- The backend call the source builds for a given provider string
(lines 52-92 and 126-151 build identical argument lists): `google` gets
the language tag, `sphinx` gets neither language nor credentials, `wit`
and `bing` get the language and one environment key, `houndify` gets the
language and the id/key pair.  `none` for an unrecognized provider
(no branch of the if-chain matches). -/
def mkCall (api language : String) (env : Env) (audio : Nat) :
    Option BackendCall :=
  if api = "google" then
    some { provider := "google", audio := audio, language := some language,
           apiKey := none, clientId := none, clientKey := none }
  else if api = "sphinx" then
    some { provider := "sphinx", audio := audio, language := none,
           apiKey := none, clientId := none, clientKey := none }
  else if api = "wit" then
    some { provider := "wit", audio := audio, language := some language,
           apiKey := some env.wit_ai_key, clientId := none, clientKey := none }
  else if api = "bing" then
    some { provider := "bing", audio := audio, language := some language,
           apiKey := some env.bing_key, clientId := none, clientKey := none }
  else if api = "houndify" then
    some { provider := "houndify", audio := audio, language := some language,
           apiKey := none, clientId := some env.houndify_client_id,
           clientKey := some env.houndify_client_key }
  else
    none

/-- Rendering of the `str(e)` of the Python `NameError` raised by
`return text` when no dispatch branch assigned `text` (the quote marks
around the variable name in the real CPython message are elided). -/
def nameErrorText : String := "name text is not defined"

/-- Lines 50-99 of the source: the dispatch `try` block of
`transcribe_speech`, entered once listening succeeded with buffer
`audio`.  Every path returns a string: `wit`, `bing` and `houndify`
have dedicated inner handlers for `UnknownValueError` / `RequestError`;
everything else falls to the outer handlers at lines 94-99; an
unrecognized provider raises `NameError` at `return text`, caught by the
outer `except Exception`. -/
def dispatchSpeech (backend : Backend) (api language : String) (env : Env)
    (audio : Nat) : String :=
  match mkCall api language env audio with
  | none => "An unexpected error occurred during transcription: " ++ nameErrorText
  | some call =>
    if api = "wit" then
      match backend call with
      | .success t => t
      | .unknownValue => "Could not understand audio using Wit.ai"
      | .requestError _ =>
          "Could not request results from Wit.ai service. Please check your API key."
      | .otherError m =>
          "An unexpected error occurred during transcription: " ++ m
    else if api = "bing" then
      match backend call with
      | .success t => t
      | .unknownValue => "Could not understand audio using Microsoft Bing"
      | .requestError _ =>
          "Could not request results from Microsoft Bing service. Please check your API key."
      | .otherError m =>
          "An unexpected error occurred during transcription: " ++ m
    else if api = "houndify" then
      match backend call with
      | .success t => t
      | .unknownValue => "Could not understand audio using Houndify"
      | .requestError _ =>
          "Could not request results from Houndify service. Please check your API credentials."
      | .otherError m =>
          "An unexpected error occurred during transcription: " ++ m
    else
      match backend call with
      | .success t => t
      | .unknownValue =>
          "Sorry, I did not understand what you said. Please try speaking more clearly."
      | .requestError m =>
          "Could not request results from " ++ api ++ " service; " ++ m
      | .otherError m =>
          "An unexpected error occurred during transcription: " ++ m

/-- The whole of `transcribe_speech` (lines 31-99).  `.error m` models an
exception escaping the function (only the `sr.Microphone()` constructor
at line 35 can do that - it stands outside every `try`); `.ok s` is the
returned string. -/
def transcribe_speech (backend : Backend) (api language : String)
    (env : Env) (mic : MicOutcome) (listen : ListenOutcome) :
    Except String String :=
  match mic with
  | .openError m => .error m
  | .ok =>
    match listen with
    | .waitTimeout => .ok "No speech detected. Please try speaking again."
    | .unknownValue =>
        .ok "Could not understand audio. Please try speaking more clearly."
    | .requestError m =>
        .ok ("Could not request results from microphone; " ++ m)
    | .otherError m =>
        .ok ("An unexpected error occurred while recording: " ++ m)
    | .ok audio => .ok (dispatchSpeech backend api language env audio)

/-- Outcome of the ffmpeg probe `subprocess.run(["ffmpeg","-version"])`
at line 106: either the call completes (ffmpeg found on the PATH) or it
raises (e.g. `FileNotFoundError` when ffmpeg is absent), caught by the
bare `except` at line 107. -/
inductive ProbeOutcome where
  | ok
  | raises
deriving DecidableEq, Repr

/-- Outcome of `AudioSegment.from_mp3(file)` (line 111): success or a
raised exception with its `str(e)`.  No temporary file exists yet at
this point. -/
inductive DecodeOutcome where
  | ok
  | raises (msg : String)
deriving DecidableEq, Repr

/-- Outcome of `audio.export(temp_wav_path, format="wav")` (line 116),
which runs after the temporary WAV file has been created. -/
inductive ExportOutcome where
  | ok
  | raises (msg : String)
deriving DecidableEq, Repr

/-- Outcome of opening the WAV with `sr.AudioFile` and `r.record(source)`
(lines 122-123): an audio buffer or a raised exception. -/
inductive ReadOutcome where
  | ok (audio : Nat)
  | raises (msg : String)
deriving DecidableEq, Repr

/-- The final state of one `transcribe_mp3` call: the string it returns
(the outer `except Exception` at line 164 means no exception escapes the
function) and whether the temporary WAV file still exists on disk when
the function returns (`tempLeaked = true` means a temporary file was
created and never unlinked). -/
structure Mp3Run where
  result : String
  tempLeaked : Bool
deriving DecidableEq, Repr

/-- The string returned at line 108 when the ffmpeg probe raises. -/
def ffmpegMissingMsg : String :=
  "Error: FFmpeg is not installed. Please install FFmpeg from: https://ffmpeg.org/download.html"

/-- The string built by the outer `except Exception` handler at
line 171, with `str(e)` interpolated. -/
def mp3ErrorMsg (m : String) : String :=
  "Error processing MP3 file: " ++ m ++
    "\nPlease make sure FFmpeg is properly installed and added to your system PATH."

/-- The whole of `transcribe_mp3` (lines 101-171).

Control-flow facts reproduced from the source:
* the ffmpeg probe runs first; if it raises, the function returns the
  dedicated message before any decode attempt (lines 104-108);
* a `from_mp3` failure raises before `temp_wav_path` exists, so the
  outer handler (which unlinks only `if "temp_wav_path" in locals()`)
  deletes nothing and there is nothing to delete;
* an `export` or WAV-read failure raises after the temporary file was
  created; the outer handler unlinks it (lines 166-170);
* once `r.record` succeeded, the dispatch `try` at lines 124-156 has only
  two handlers (`UnknownValueError`, `RequestError`): every one of its
  `return` statements executes INSIDE the `with sr.AudioFile` block, so
  the cleanup `os.unlink` at lines 159-162 after the block is never
  reached and the temporary file is left behind on those paths;
* any other exception in the dispatch block (including the `NameError`
  from an unrecognized provider at `return text`) propagates to the
  outer handler, which unlinks the temporary file and returns the
  generic message. -/
def transcribe_mp3 (backend : Backend) (api language : String) (env : Env)
    (probe : ProbeOutcome) (decode : DecodeOutcome)
    (exportWav : ExportOutcome) (readWav : ReadOutcome) : Mp3Run :=
  match probe with
  | .raises => { result := ffmpegMissingMsg, tempLeaked := false }
  | .ok =>
    match decode with
    | .raises m => { result := mp3ErrorMsg m, tempLeaked := false }
    | .ok =>
      match exportWav with
      | .raises m => { result := mp3ErrorMsg m, tempLeaked := false }
      | .ok =>
        match readWav with
        | .raises m => { result := mp3ErrorMsg m, tempLeaked := false }
        | .ok audio =>
          match mkCall api language env audio with
          | none =>
              { result := mp3ErrorMsg nameErrorText, tempLeaked := false }
          | some call =>
            match backend call with
            | .success t => { result := t, tempLeaked := true }
            | .unknownValue =>
                { result := "Sorry, I did not understand what you said.",
                  tempLeaked := true }
            | .requestError m =>
                { result := "Could not request results from " ++ api
                    ++ " service; " ++ m,
                  tempLeaked := true }
            | .otherError m =>
                { result := mp3ErrorMsg m, tempLeaked := false }

/-- A wall-clock instant, as `datetime.datetime.now()` exposes it to
`strftime("%Y%m%d_%H%M%S")`. -/
structure Timestamp where
  year : Nat
  month : Nat
  day : Nat
  hour : Nat
  minute : Nat
  second : Nat
deriving DecidableEq, Repr

/-- Zero-pad a numeral to width 2, as `strftime` does for `%m %d %H %M %S`. -/
def pad2 (n : Nat) : String :=
  if n < 10 then "0" ++ toString n else toString n

/-- Zero-pad a numeral to width 4, as `strftime` does for `%Y`. -/
def pad4 (n : Nat) : String :=
  if n < 10 then "000" ++ toString n
  else if n < 100 then "00" ++ toString n
  else if n < 1000 then "0" ++ toString n
  else toString n

/-- Rendering of `now.strftime("%Y%m%d_%H%M%S")` (line 179). -/
def formatTimestamp (t : Timestamp) : String :=
  pad4 t.year ++ pad2 t.month ++ pad2 t.day ++ "_"
    ++ pad2 t.hour ++ pad2 t.minute ++ pad2 t.second

/-- Python truthiness of the `filename` argument at line 178
(`if not filename:`): `None` and the empty string are falsy. -/
def pyFalsy : Option String → Bool
  | none => true
  | some s => s == ""

/-- Outcome of `open(filename, "w").write(text)` (lines 183-184). -/
inductive WriteOutcome where
  | ok
  | raises (msg : String)
deriving DecidableEq, Repr

/-- The final state of one `save_transcription` call: the filename the
function settled on, the string it returns, and what was written
(`some (name, content)` on success, `none` when the write raised). -/
structure SaveRun where
  filenameUsed : String
  result : String
  written : Option (String × String)
deriving DecidableEq, Repr

/-- Embedding of `save_transcription` (lines 173-187), with the
wall-clock time at the moment of the call passed in as `now` (the source
reads it with `datetime.datetime.now()` inside the function, at
line 179). -/
def save_transcription (text : String) (filename : Option String)
    (now : Timestamp) (write : WriteOutcome) : SaveRun :=
  let fn : String :=
    if pyFalsy filename then
      "transcription_" ++ formatTimestamp now ++ ".txt"
    else
      filename.getD ""
  match write with
  | .ok =>
      { filenameUsed := fn,
        result := "Transcription saved successfully to: " ++ fn,
        written := some (fn, text) }
  | .raises m =>
      { filenameUsed := fn,
        result := "Error saving transcription: " ++ m,
        written := none }

/-!
## Theorems settling the claims
-/

/-- C1: the claim says the temporary WAV file is deleted before
`transcribe_mp3` returns on every exit path that created it.  The code
violates this: the cleanup `os.unlink` at lines 159-162 sits after the
`with sr.AudioFile` block, but every recognition outcome returns from
INSIDE that block, so on a normal return of a transcript and on both
recognition-failure returns the temporary file is left behind
(`tempLeaked = true`).  This theorem evaluates the embedding at those
three failing inputs (provider google, everything up to recognition
succeeding). -/
theorem c1_temp_leak_on_success :
    transcribe_mp3 (fun _ => RecogOutcome.success "hello world") "google"
        "en-US" envEmpty .ok .ok .ok (.ok 0)
      = { result := "hello world", tempLeaked := true }
    ∧ (transcribe_mp3 (fun _ => RecogOutcome.unknownValue) "google"
        "en-US" envEmpty .ok .ok .ok (.ok 0)).tempLeaked = true
    ∧ (transcribe_mp3 (fun _ => RecogOutcome.requestError "x") "google"
        "en-US" envEmpty .ok .ok .ok (.ok 0)).tempLeaked = true :=
  ⟨rfl, rfl, rfl⟩

/-- C5 counterexample: the claim says `transcribe_speech` never raises
past its boundary, INCLUDING a failure to acquire the microphone source.
But `sr.Microphone()` at line 35 stands outside every `try`, so a
constructor failure propagates as an exception (`.error` in the
embedding) at this concrete input. -/
theorem c5_counterexample :
    transcribe_speech (fun _ => RecogOutcome.success "t") "google" "en-US"
        envEmpty (.openError "Could not find PyAudio") (.ok 0)
      = .error "Could not find PyAudio" := rfl

/-- C5 amended: once the microphone source is acquired, capture never
raises - every outcome is returned as a string, with the three distinct
recoverable messages (timeout-with-no-speech, unintelligible audio,
request failure) plus a catch-all; a failure to acquire the microphone
source itself, however, propagates as an exception. -/
theorem c5_no_raise_after_mic (backend : Backend) (api language : String)
    (env : Env) (listen : ListenOutcome) :
    (∃ s, transcribe_speech backend api language env .ok listen = .ok s)
    ∧ transcribe_speech backend api language env .ok .waitTimeout
        = .ok "No speech detected. Please try speaking again."
    ∧ transcribe_speech backend api language env .ok .unknownValue
        = .ok "Could not understand audio. Please try speaking more clearly."
    ∧ (∀ m, transcribe_speech backend api language env .ok (.requestError m)
        = .ok ("Could not request results from microphone; " ++ m))
    ∧ (∀ m, transcribe_speech backend api language env .ok (.otherError m)
        = .ok ("An unexpected error occurred while recording: " ++ m))
    ∧ ∀ m, transcribe_speech backend api language env (.openError m) listen
        = .error m := by
  refine ⟨?_, rfl, rfl, fun m => rfl, fun m => rfl, fun m => rfl⟩
  cases listen <;> exact ⟨_, rfl⟩

/-- C3 counterexample: the claim says dispatch with a provider outside
the five-element set propagates as an unhandled fault that terminates
the request.  In the code the unmatched if-chain leaves `text` unbound,
`return text` raises `NameError`, and the surrounding
`except Exception` handlers convert it into a RETURNED string: at the
concrete provider "whisper" both functions return normally (`.ok` /
a result record), so nothing propagates. -/
theorem c3_counterexample :
    transcribe_speech (fun _ => RecogOutcome.success "t") "whisper" "en-US"
        envEmpty .ok (.ok 0)
      = .ok ("An unexpected error occurred during transcription: "
          ++ nameErrorText)
    ∧ transcribe_mp3 (fun _ => RecogOutcome.success "t") "whisper" "en-US"
        envEmpty .ok .ok .ok (.ok 0)
      = { result := mp3ErrorMsg nameErrorText, tempLeaked := false } :=
  ⟨rfl, rfl⟩

/-- C3 amended: dispatch with a provider identifier outside
{google, sphinx, wit, bing, houndify} does NOT propagate: the internal
`NameError` is caught by the catch-all handler and both functions return
the corresponding unexpected-error string (and `transcribe_mp3` also
unlinks the temporary file on that path). -/
theorem c3_unknown_provider_caught (backend : Backend)
    (api language : String) (env : Env) (audio : Nat)
    (h1 : api ≠ "google") (h2 : api ≠ "sphinx") (h3 : api ≠ "wit")
    (h4 : api ≠ "bing") (h5 : api ≠ "houndify") :
    transcribe_speech backend api language env .ok (.ok audio)
      = .ok ("An unexpected error occurred during transcription: "
          ++ nameErrorText)
    ∧ transcribe_mp3 backend api language env .ok .ok .ok (.ok audio)
      = { result := mp3ErrorMsg nameErrorText, tempLeaked := false } := by
  constructor
  · unfold transcribe_speech dispatchSpeech mkCall
    simp [h1, h2, h3, h4, h5]
  · unfold transcribe_mp3 mkCall
    simp [h1, h2, h3, h4, h5]

/-- C3 amended, witness at the concrete provider "deepgram". -/
theorem c3_unknown_provider_caught_witness :
    transcribe_speech (fun _ => RecogOutcome.unknownValue) "deepgram"
        "en-US" envEmpty .ok (.ok 7)
      = .ok ("An unexpected error occurred during transcription: "
          ++ nameErrorText)
    ∧ transcribe_mp3 (fun _ => RecogOutcome.unknownValue) "deepgram"
        "en-US" envEmpty .ok .ok .ok (.ok 7)
      = { result := mp3ErrorMsg nameErrorText, tempLeaked := false } :=
  c3_unknown_provider_caught (fun _ => RecogOutcome.unknownValue)
    "deepgram" "en-US" envEmpty 7
    (by decide) (by decide) (by decide) (by decide) (by decide)

/-- C4 counterexample: the claim says the value crossing to the UI is a
tagged union whose shape distinguishes success from failure.  In the
code both are plain strings: at this concrete input a SUCCESSFUL
transcript whose text happens to equal the unintelligible-audio failure
message produces a value identical to that failure, so no caller can
distinguish them by shape. -/
theorem c4_counterexample :
    (transcribe_mp3
        (fun _ => RecogOutcome.success
          "Sorry, I did not understand what you said.")
        "google" "en-US" envEmpty .ok .ok .ok (.ok 0)).result
      = (transcribe_mp3 (fun _ => RecogOutcome.unknownValue)
          "google" "en-US" envEmpty .ok .ok .ok (.ok 0)).result := rfl

/-- C4 amended: both functions hand the UI plain strings, not a tagged
union - a successful transcript is passed through verbatim and failures
are fixed message strings of the same type, so success and failure are
distinguishable only by string content. -/
theorem c4_boundary_is_string (s language : String) (env : Env)
    (audio : Nat) :
    transcribe_speech (fun _ => RecogOutcome.success s) "google" language
        env .ok (.ok audio) = .ok s
    ∧ transcribe_speech (fun _ => RecogOutcome.unknownValue) "google"
        language env .ok (.ok audio)
      = .ok "Sorry, I did not understand what you said. Please try speaking more clearly."
    ∧ (transcribe_mp3 (fun _ => RecogOutcome.success s) "google" language
        env .ok .ok .ok (.ok audio)).result = s
    ∧ (transcribe_mp3 (fun _ => RecogOutcome.unknownValue) "google"
        language env .ok .ok .ok (.ok audio)).result
      = "Sorry, I did not understand what you said." :=
  ⟨rfl, rfl, rfl, rfl⟩

/-- C8: with no filename given, `save_transcription` derives the output
name as `transcription_<YYYYMMDD_HHMMSS>.txt` from the wall-clock time
`now` read inside the call itself (line 179), for every text and every
write outcome; on a successful write it is exactly this derived file
that receives the text. -/
theorem c8_derived_filename (text : String) (now : Timestamp)
    (write : WriteOutcome) :
    (save_transcription text none now write).filenameUsed
      = "transcription_" ++ formatTimestamp now ++ ".txt"
    ∧ (save_transcription text none now .ok).written
      = some ("transcription_" ++ formatTimestamp now ++ ".txt", text) := by
  cases write <;> exact ⟨rfl, rfl⟩

/-- C9: the sphinx branch calls `recognize_sphinx(audio)` with no
language argument (lines 55 and 129), so for every backend, environment
and capture outcome the result of both functions with provider sphinx is
identical under any two language tags. -/
theorem c9_sphinx_language_independent (backend : Backend) (env : Env)
    (mic : MicOutcome) (listen : ListenOutcome) (probe : ProbeOutcome)
    (decode : DecodeOutcome) (exportWav : ExportOutcome)
    (readWav : ReadOutcome) (lang1 lang2 : String) :
    transcribe_speech backend "sphinx" lang1 env mic listen
      = transcribe_speech backend "sphinx" lang2 env mic listen
    ∧ transcribe_mp3 backend "sphinx" lang1 env probe decode exportWav readWav
      = transcribe_mp3 backend "sphinx" lang2 env probe decode exportWav readWav := by
  constructor
  · cases mic <;> cases listen <;> rfl
  · cases probe <;> cases decode <;> cases exportWav <;> cases readWav <;> rfl

/-- C10: an empty-string filename is falsy under the `if not filename:`
check at line 178, so `save_transcription(text, "")` behaves exactly
like a call with no filename and derives the timestamp-based name. -/
theorem c10_empty_filename_derived (text : String) (now : Timestamp)
    (write : WriteOutcome) :
    save_transcription text (some "") now write
      = save_transcription text none now write
    ∧ (save_transcription text (some "") now write).filenameUsed
      = "transcription_" ++ formatTimestamp now ++ ".txt" := by
  cases write <;> exact ⟨rfl, rfl⟩

/-- The ffmpeg-missing message differs from every string the outer
exception handler of `transcribe_mp3` can build (they already differ at
character index 5: a colon versus a space). -/
theorem ffmpegMissingMsg_ne_mp3ErrorMsg (m : String) :
    ffmpegMissingMsg ≠ mp3ErrorMsg m := by
  intro h
  have h5 : ffmpegMissingMsg.data[5]? = (mp3ErrorMsg m).data[5]? := by rw [h]
  rw [mp3ErrorMsg, String.data_append, String.data_append,
    List.append_assoc, List.getElem?_append_left (by decide)] at h5
  revert h5
  decide

/-- C6: `transcribe_mp3` probes for ffmpeg first (lines 104-108); when
the probe raises, the function returns the dedicated missing-dependency
message with no temporary file, whatever the decoder, exporter or reader
would have done - so no decode is attempted and the result cannot be a
decode-error string (the missing-dependency message never equals a
processing-error message). -/
theorem c6_ffmpeg_probe_first (backend : Backend) (api language : String)
    (env : Env) (decode : DecodeOutcome) (exportWav : ExportOutcome)
    (readWav : ReadOutcome) :
    transcribe_mp3 backend api language env .raises decode exportWav readWav
      = { result := ffmpegMissingMsg, tempLeaked := false }
    ∧ ∀ m, (ffmpegMissingMsg == mp3ErrorMsg m) = false := by
  refine ⟨rfl, fun m => ?_⟩
  exact beq_eq_false_iff_ne.mpr (ffmpegMissingMsg_ne_mp3ErrorMsg m)

/-- C2 counterexample: the claim says recognition with an absent
credential yields a MissingCredentials result, determined BEFORE any
network call, and never a TransportError.  At these concrete inputs the
environment holds no credentials at all, yet (a) a backend-reported
request failure in the MP3 path surfaces as the generic
transport-error message, and (b) when the backend call succeeds the
function returns the transcript itself - so the backend call is
attempted, its outcome determines the result, and no missing-credentials
kind is produced. -/
theorem c2_counterexample :
    (transcribe_mp3
        (fun _ => RecogOutcome.requestError "recognition connection failed")
        "wit" "en-US" envEmpty .ok .ok .ok (.ok 0)).result
      = "Could not request results from wit service; recognition connection failed"
    ∧ transcribe_speech (fun _ => RecogOutcome.success "hello") "wit"
        "en-US" envEmpty .ok (.ok 0)
      = .ok "hello" :=
  ⟨rfl, rfl⟩

/-- C2 amended: neither function checks credential presence - the
backend call is attempted with whatever `os.getenv` returned (possibly
None), and for any backend whose outcome does not depend on the passed
call the result is entirely independent of the environment; the outcome
of the attempted call alone determines the result. -/
theorem c2_no_credential_check (o : RecogOutcome) (api language : String)
    (env1 env2 : Env) (mic : MicOutcome) (listen : ListenOutcome)
    (probe : ProbeOutcome) (decode : DecodeOutcome)
    (exportWav : ExportOutcome) (readWav : ReadOutcome) :
    transcribe_speech (fun _ => o) api language env1 mic listen
      = transcribe_speech (fun _ => o) api language env2 mic listen
    ∧ transcribe_mp3 (fun _ => o) api language env1 probe decode
        exportWav readWav
      = transcribe_mp3 (fun _ => o) api language env2 probe decode
          exportWav readWav := by
  constructor
  · cases mic with
    | openError m => rfl
    | ok =>
      cases listen with
      | ok audio =>
        unfold transcribe_speech dispatchSpeech mkCall
        split_ifs <;> cases o <;> rfl
      | waitTimeout => rfl
      | unknownValue => rfl
      | requestError m => rfl
      | otherError m => rfl
  · cases probe with
    | raises => rfl
    | ok =>
      cases decode with
      | raises m => rfl
      | ok =>
        cases exportWav with
        | raises m => rfl
        | ok =>
          cases readWav with
          | raises m => rfl
          | ok audio =>
            unfold transcribe_mp3 mkCall
            split_ifs <;> cases o <;> rfl

/-- C7 counterexample: the claim says wit and bing request failures
yield the dedicated credentials-problem message in BOTH recognition
paths.  At this concrete input the MP3 path maps a wit request failure
to the generic transport message instead, which is not the
credentials-problem message. -/
theorem c7_counterexample :
    (transcribe_mp3 (fun _ => RecogOutcome.requestError "HTTP 401") "wit"
        "en-US" envEmpty .ok .ok .ok (.ok 0)).result
      = "Could not request results from wit service; HTTP 401"
    ∧ ((transcribe_mp3 (fun _ => RecogOutcome.requestError "HTTP 401") "wit"
        "en-US" envEmpty .ok .ok .ok (.ok 0)).result
        == "Could not request results from Wit.ai service. Please check your API key.")
      = false := by
  exact ⟨rfl, by decide⟩

/-- C7 amended: only `transcribe_speech` has the dedicated per-provider
handlers - there, for every backend request failure (whether caused by a
bad key or a missing one; the environment is arbitrary) wit and bing map
to their check-your-API-key messages; `transcribe_mp3` maps the same
failures to the generic transport message. -/
theorem c7_speech_vs_mp3_credentials (language m : String) (env : Env)
    (audio : Nat) :
    transcribe_speech (fun _ => RecogOutcome.requestError m) "wit"
        language env .ok (.ok audio)
      = .ok "Could not request results from Wit.ai service. Please check your API key."
    ∧ transcribe_speech (fun _ => RecogOutcome.requestError m) "bing"
        language env .ok (.ok audio)
      = .ok "Could not request results from Microsoft Bing service. Please check your API key."
    ∧ (transcribe_mp3 (fun _ => RecogOutcome.requestError m) "wit"
        language env .ok .ok .ok (.ok audio)).result
      = "Could not request results from wit service; " ++ m
    ∧ (transcribe_mp3 (fun _ => RecogOutcome.requestError m) "bing"
        language env .ok .ok .ok (.ok audio)).result
      = "Could not request results from bing service; " ++ m :=
  ⟨rfl, rfl, rfl, rfl⟩

end Speach
